import Mathlib

/-!
Shallow embedding of `pg_cascade_timestamp`: the two C trigger functions
`cascade_timestamp` (src/cascade_timestamp.c) and `cascade_update_at`
(src/cascade_update_at.c), together with their shared plan-cache helper
`find_plan`.

Modelling conventions:
* Host (PostgreSQL/SPI) collaborator functions are modelled as pure accessors
  on the embedded data: `SPI_fnumber`, `SPI_getvalue`, `SPI_getbinval`,
  `SPI_gettypeid`.  `SPI_connect`, `SPI_prepare`, `SPI_saveplan` and
  `SPI_execp` are modelled as succeeding; the prepared statement is the pair
  (generated SQL text, inferred parameter type oid), and execution is recorded
  as an observable event carrying the statement text and the bound datum.
* A heap tuple carries the header fields the C code inspects (`t_len`,
  `t_hoff`, number of attributes, `t_infomask`, the optional object id) and
  `region`, the raw bytes of the span `[offsetof(t_bits), t_len)` excluding
  the object-id slot; the `memcmp` of that span is modelled as equality of
  `region` together with equality of the object ids when the relation stores
  oids (the oid slot lies inside the compared span).  Per-attribute values,
  as the SPI accessors deliver them, are carried in `fields`: the text
  rendering (`none` models a NULL result of `SPI_getvalue`) and the binary
  datum with its null flag (`heap_getattr` yields datum 0 for a null).
* `elog(ERROR, ...)` aborts the transaction; it is modelled as `Except.error`.
* In C, the predicate loop's read of `args[i+1]` when `i+1 = tgnargs` is an
  out-of-bounds read (undefined behaviour); the embedding marks it with the
  distinguished error `TgError.oobRead`.
* Machine integers: `t_infomask` is a 16-bit field; `~HEAP_XACT_MASK`
  truncated to 16 bits is the constant `NOT_XACT_MASK = 0x000F`.
-/

namespace PgCascade

/-- One attribute value of a tuple, as the SPI accessors deliver it:
`text` is the result of `SPI_getvalue` (`none` models a NULL return),
`bin`/`isnull` the result of `SPI_getbinval`. -/
structure Field where
  text : Option String
  bin : Int
  isnull : Bool
deriving Repr, DecidableEq

/-- A heap tuple: the header fields inspected by the change classifier plus
the raw compared byte span and the per-attribute values. `oid = 0` models an
invalid (unset) object id, as in `OidIsValid`. -/
structure HeapTuple where
  t_len : Nat
  t_hoff : Nat
  natts : Nat
  infomask : Nat
  oid : Nat
  region : List Nat
  fields : List Field
deriving Repr, DecidableEq

/-- Tuple descriptor: attribute names and their type oids, in order. -/
structure TupleDescr where
  attnames : List String
  atttypes : List Nat
deriving Repr, DecidableEq

/-- The triggered relation: name, numeric id (`rd_id`), whether rows carry
oids (`rd_rel->relhasoids`), and the row descriptor (`rd_att`). -/
structure RelationInfo where
  relname : String
  rd_id : Nat
  relhasoids : Bool
  rd_att : TupleDescr
deriving Repr, DecidableEq

/-- The trigger: its name (`tgname`) and argument list (`tgargs`,
with `tgnargs = tgargs.length`). -/
structure Trigger where
  tgname : String
  tgargs : List String
deriving Repr, DecidableEq

/-- The operation that fired the trigger. -/
inductive TgOp
  | ins
  | upd
  | del
deriving Repr, DecidableEq

/-- The `TriggerData` the host hands to the function.  For an update,
`tg_trigtuple` is the old row image and `tg_newtuple` the new one; for
insert/delete, `tg_trigtuple` is the single affected row and `tg_newtuple`
is not inspected. -/
structure TriggerData where
  op : TgOp
  firedAfter : Bool
  firedForRow : Bool
  tg_trigtuple : HeapTuple
  tg_newtuple : HeapTuple
  tg_relation : RelationInfo
  tg_trigger : Trigger
deriving Repr, DecidableEq

/-- The fatal error classes (`elog(ERROR, ...)` sites).  `oobRead` marks the
C code's out-of-bounds read of `args[i+1]` past the argument array. -/
inductive TgError
  | notTrigger
  | notAfter
  | notRow
  | badArgs (n : Nat)
  | noAttribute (rel att : String)
  | oobRead
deriving Repr, DecidableEq

/-- A saved SPI plan: the statement text and its single parameter's type. -/
structure SPIPlan where
  sql : String
  argtype : Nat
deriving Repr, DecidableEq

/-- A plan-cache entry (`EPlan` in the C): identity string and the optional
saved plan, `none` until first filled. -/
structure EPlan where
  ident : String
  plan : Option SPIPlan
deriving Repr, DecidableEq

/-- Observable SPI statement effects of one invocation. -/
inductive Event
  | prepare (sql : String) (argtype : Nat)
  | execute (sql : String) (param : Int)
deriving Repr, DecidableEq

/-- Result of a non-error invocation: the tuple returned to the host, the
plan cache afterwards, and the statement events in order. -/
structure RunResult where
  ret : HeapTuple
  cache : List EPlan
  events : List Event
deriving Repr, DecidableEq

/-- `SPI_fnumber`: 1-based attribute number of a named user column, or the
negative error code when the relation has no such attribute. -/
def spiFnumber (tupdesc : TupleDescr) (name : String) : Int :=
  match tupdesc.attnames.findIdx? (fun a => a = name) with
  | some i => (i : Int) + 1
  | none => -9

/-- `SPI_getvalue`: text rendering of attribute `fnumber` on `row`, `none`
for a NULL result. -/
def spiGetvalue (row : HeapTuple) (fnumber : Nat) : Option String :=
  match row.fields.get? (fnumber - 1) with
  | some f => f.text
  | none => none

/-- `SPI_getbinval`: the binary datum and null flag of attribute `fnumber`;
a null attribute yields datum 0 (as `heap_getattr` does). -/
def spiGetbinval (row : HeapTuple) (fnumber : Nat) : Int × Bool :=
  match row.fields.get? (fnumber - 1) with
  | some f => if f.isnull then (0, true) else (f.bin, false)
  | none => (0, true)

/-- `SPI_gettypeid`: declared type oid of attribute `fnumber`. -/
def spiGettypeid (tupdesc : TupleDescr) (fnumber : Nat) : Nat :=
  tupdesc.atttypes.getD (fnumber - 1) 0

/-- `HEAP_XACT_MASK` (transaction-status bits of `t_infomask`). -/
def HEAP_XACT_MASK : Nat := 0xFFF0

/-- `~HEAP_XACT_MASK` truncated to the 16 bits of `t_infomask`. -/
def NOT_XACT_MASK : Nat := 0x000F

/-- The oid copy-forward: when the relation stores oids and the new header's
oid is unset, it is copied from the old header before comparing. -/
def fixOid (relhasoids : Bool) (newt oldt : HeapTuple) : HeapTuple :=
  if relhasoids && newt.oid == 0 then { newt with oid := oldt.oid } else newt

/-- The tuple-payload comparison of the change classifier: same length, same
header offset, same attribute count, same non-transactional infomask bits,
and identical bytes from `offsetof(t_bits)` to `t_len` (the oid slot lies in
that span exactly when the relation stores oids). -/
def sameTuple (relhasoids : Bool) (newt oldt : HeapTuple) : Bool :=
  newt.t_len == oldt.t_len &&
  newt.t_hoff == oldt.t_hoff &&
  newt.natts == oldt.natts &&
  ((newt.infomask &&& NOT_XACT_MASK) == (oldt.infomask &&& NOT_XACT_MASK)) &&
  (!relhasoids || newt.oid == oldt.oid) &&
  newt.region == oldt.region

/-- The row change classifier: an update is a change unless the (oid-fixed)
new image compares equal to the old; insert and delete are always changes. -/
def rowChanged (op : TgOp) (relhasoids : Bool) (newt oldt : HeapTuple) : Bool :=
  match op with
  | .upd => !(sameTuple relhasoids (fixOid relhasoids newt oldt) oldt)
  | _ => true

/-- The predicate-guard loop over the trailing `(column, value)` argument
pairs, walking the suffix of `tgargs` from the loop's start index.  For each
column: unknown attribute is fatal (the C embeds `errAtt` in the message);
a NULL-rendered value lets the pair match; a non-null value is compared by
exact string equality against the next argument — which, when the pair is
incomplete, the C reads out of bounds (`TgError.oobRead`).  A mismatch stops
the loop with `false` (skip); exhausting the pairs yields `true`. -/
def checkPairsAux (row : HeapTuple) (tupdesc : TupleDescr)
    (relname errAtt : String) : List String → Except TgError Bool
  | [] => .ok true
  | col :: rest =>
    let fnum := spiFnumber tupdesc col
    if fnum < 0 then .error (.noAttribute relname errAtt)
    else
      match spiGetvalue row fnum.toNat with
      | none =>
        match rest with
        | [] => .ok true
        | _ :: rest2 => checkPairsAux row tupdesc relname errAtt rest2
      | some v =>
        match rest with
        | [] => .error .oobRead
        | expected :: rest2 =>
          if v ≠ expected then .ok false
          else checkPairsAux row tupdesc relname errAtt rest2

/-- Index of the first cache entry whose `ident` matches, as the linear scan
in `find_plan` computes it. -/
def findPlanIdx (ident : String) : List EPlan → Option Nat
  | [] => none
  | e :: rest =>
    if e.ident = ident then some 0
    else (findPlanIdx ident rest).map (· + 1)

/-- `find_plan`: return the index of the existing entry for `ident`, or
append a fresh entry (`plan = none`) at the end and return its index. -/
def find_plan (ident : String) (cache : List EPlan) : Nat × List EPlan :=
  match findPlanIdx ident cache with
  | some i => (i, cache)
  | none => (cache.length, cache ++ [{ ident := ident, plan := none }])

/-- `cascade_timestamp` (src/cascade_timestamp.c, the "full" variant).
Arguments `tgargs = [destination_table, destination_timestamp_column,
destination_key_column, source_key_column, (predicate_column,
predicate_value)*]` per the file's usage comment.  `calledAsTrigger` models
`CALLED_AS_TRIGGER(fcinfo)`.  The function validates the call, classifies
the change, runs the predicate loop over `tgargs` from index 4 on the
triggering tuple, then on a cascade looks up the plan cache by
`tgname ++ "$" ++ rd_id`, reads the value of the column named by `tgargs[2]`
from the triggering tuple, prepares (on a fresh entry, unless that value is
null) `UPDATE tgargs[0] SET tgargs[1] = NOW() WHERE tgargs[2] = $1`, and
executes the cached plan binding that value. -/
def cascade_timestamp (calledAsTrigger : Bool) (td : TriggerData)
    (cache : List EPlan) : Except TgError RunResult :=
  if !calledAsTrigger then .error .notTrigger
  else if !td.firedAfter then .error .notAfter
  else if !td.firedForRow then .error .notRow
  else if td.tg_trigger.tgargs.length < 3 then
    .error (.badArgs td.tg_trigger.tgargs.length)
  else
    let rettuple := td.tg_trigtuple
    let args := td.tg_trigger.tgargs
    let rel := td.tg_relation
    let tupdesc := rel.rd_att
    let chg := rowChanged td.op rel.relhasoids td.tg_newtuple td.tg_trigtuple
    match checkPairsAux rettuple tupdesc rel.relname (args.getD 3 "")
        (args.drop 4) with
    | .error e => .error e
    | .ok g =>
      if !(chg && g) then .ok ⟨rettuple, cache, []⟩
      else
        let ident := td.tg_trigger.tgname ++ "$" ++ toString rel.rd_id
        let fp := find_plan ident cache
        let fnum := spiFnumber tupdesc (args.getD 2 "")
        if fnum < 0 then .error (.noAttribute rel.relname (args.getD 2 ""))
        else
          let kv := spiGetbinval rettuple fnum.toNat
          match (fp.2.getD fp.1 ⟨"", none⟩).plan with
          | some p => .ok ⟨rettuple, fp.2, [.execute p.sql kv.1]⟩
          | none =>
            if kv.2 then .ok ⟨rettuple, fp.2, []⟩
            else
              let argtype := spiGettypeid tupdesc fnum.toNat
              let sql := "UPDATE " ++ args.getD 0 "" ++ " SET " ++
                  args.getD 1 "" ++ " = NOW() WHERE " ++ args.getD 2 "" ++
                  " = $1"
              .ok ⟨rettuple, fp.2.set fp.1 ⟨ident, some ⟨sql, argtype⟩⟩,
                  [.prepare sql argtype, .execute sql kv.1]⟩

/-- `cascade_update_at` (src/cascade_update_at.c, the "simplified" variant).
Arguments `tgargs = [destination_table, destination_column,
source_key_column, (predicate_column, predicate_value)*]`.  Identical to
`cascade_timestamp` except that the predicate loop starts at argument
index 3, the unknown-attribute message cites `tgargs[2]`, and the generated
statement hardcodes the destination key column to the literal `id`:
`UPDATE tgargs[0] SET tgargs[1] = NOW() WHERE id = $1`. -/
def cascade_update_at (calledAsTrigger : Bool) (td : TriggerData)
    (cache : List EPlan) : Except TgError RunResult :=
  if !calledAsTrigger then .error .notTrigger
  else if !td.firedAfter then .error .notAfter
  else if !td.firedForRow then .error .notRow
  else if td.tg_trigger.tgargs.length < 3 then
    .error (.badArgs td.tg_trigger.tgargs.length)
  else
    let rettuple := td.tg_trigtuple
    let args := td.tg_trigger.tgargs
    let rel := td.tg_relation
    let tupdesc := rel.rd_att
    let chg := rowChanged td.op rel.relhasoids td.tg_newtuple td.tg_trigtuple
    match checkPairsAux rettuple tupdesc rel.relname (args.getD 2 "")
        (args.drop 3) with
    | .error e => .error e
    | .ok g =>
      if !(chg && g) then .ok ⟨rettuple, cache, []⟩
      else
        let ident := td.tg_trigger.tgname ++ "$" ++ toString rel.rd_id
        let fp := find_plan ident cache
        let fnum := spiFnumber tupdesc (args.getD 2 "")
        if fnum < 0 then .error (.noAttribute rel.relname (args.getD 2 ""))
        else
          let kv := spiGetbinval rettuple fnum.toNat
          match (fp.2.getD fp.1 ⟨"", none⟩).plan with
          | some p => .ok ⟨rettuple, fp.2, [.execute p.sql kv.1]⟩
          | none =>
            if kv.2 then .ok ⟨rettuple, fp.2, []⟩
            else
              let argtype := spiGettypeid tupdesc fnum.toNat
              let sql := "UPDATE " ++ args.getD 0 "" ++ " SET " ++
                  args.getD 1 "" ++ " = NOW() WHERE id = $1"
              .ok ⟨rettuple, fp.2.set fp.1 ⟨ident, some ⟨sql, argtype⟩⟩,
                  [.prepare sql argtype, .execute sql kv.1]⟩

/-- Iterated invocation of `cascade_timestamp`, threading the plan cache and
concatenating the statement events, for idempotence statements. -/
def iterateCT (td : TriggerData) :
    List EPlan → Nat → Except TgError (List EPlan × List Event)
  | c, 0 => .ok (c, [])
  | c, n + 1 =>
    match cascade_timestamp true td c with
    | .error e => .error e
    | .ok r =>
      match iterateCT td r.cache n with
      | .error e => .error e
      | .ok p => .ok (p.1, r.events ++ p.2)

/-! Concrete sample data: a `post` relation with a `topic_id` foreign key to
the `topic` table, as in the usage comment of src/cascade_timestamp.c. -/

/-- A non-null integer attribute value. -/
def intField (n : Int) : Field := ⟨some (toString n), n, false⟩

/-- A non-null text attribute value (binary datum irrelevant here). -/
def textField (s : String) : Field := ⟨some s, 0, false⟩

/-- A NULL attribute value. -/
def nullField : Field := ⟨none, 0, true⟩

/-- Descriptor of a `post` relation: `id`, `topic_id` (int4, oid 23) and a
`content` text column (oid 25). -/
def descContent : TupleDescr := ⟨["id", "topic_id", "content"], [23, 23, 25]⟩

/-- Descriptor of a `post` relation with a `flag` text column instead. -/
def descFlag : TupleDescr := ⟨["id", "topic_id", "flag"], [23, 23, 25]⟩

/-- The generated statement of the simplified variant (and of the full
variant when its third argument is `id`) for destination `topic`. -/
def sqlWhereId : String := "UPDATE topic SET updated_at = NOW() WHERE id = $1"

/-- Row of `post` with `id = 7`, `topic_id = 5`, `content = hello`. -/
def rowHello : HeapTuple := ⟨40, 24, 3, 2, 0, [0, 1], [intField 7, intField 5, textField "hello"]⟩

/-- Same row after an update that changed `content` (payload bytes differ). -/
def rowHowdy : HeapTuple := ⟨40, 24, 3, 2, 0, [0, 2], [intField 7, intField 5, textField "howdy"]⟩

/-- Scenario A invocation: full variant, args
`(topic, updated_at, id, topic_id)`, content-changing update of `rowHello`. -/
def tdScenA : TriggerData :=
  ⟨.upd, true, true, rowHello, rowHowdy, ⟨"post", 1001, false, descContent⟩,
    ⟨"post_update_trigger", ["topic", "updated_at", "id", "topic_id"]⟩⟩

/-- Row of `post` whose `topic_id` is NULL. -/
def rowNullKey : HeapTuple := ⟨40, 24, 3, 2, 0, [0, 1], [intField 7, nullField, textField "x"]⟩

/-- Simplified-variant insert of `rowNullKey`, args `(topic, updated_at,
topic_id)`. -/
def tdNullKey : TriggerData :=
  ⟨.ins, true, true, rowNullKey, rowNullKey, ⟨"post", 2002, false, descContent⟩,
    ⟨"post_t", ["topic", "updated_at", "topic_id"]⟩⟩

/-- A cache already holding a saved plan for `tdNullKey`'s identity. -/
def cacheFilled : List EPlan := [⟨"post_t$2002", some ⟨sqlWhereId, 23⟩⟩]

/-- Row of `post` with `flag = no`. -/
def rowFlagNo : HeapTuple := ⟨40, 24, 3, 2, 0, [0, 1], [intField 7, intField 5, textField "no"]⟩

/-- The same row after an update setting `flag = yes` (payload differs). -/
def rowFlagYes : HeapTuple := ⟨40, 24, 3, 2, 0, [0, 2], [intField 7, intField 5, textField "yes"]⟩

/-- Full-variant update with predicate pair `(flag, yes)`: the old image has
`flag = no`, the new image `flag = yes`. -/
def tdGuardRows : TriggerData :=
  ⟨.upd, true, true, rowFlagNo, rowFlagYes, ⟨"post", 3003, false, descFlag⟩,
    ⟨"post_f", ["topic", "updated_at", "id", "topic_id", "flag", "yes"]⟩⟩

/-- Full-variant no-op update: old and new images are identical. -/
def tdNoop : TriggerData :=
  ⟨.upd, true, true, rowHello, rowHello, ⟨"post", 4004, false, descContent⟩,
    ⟨"post_noop", ["topic", "updated_at", "id", "topic_id"]⟩⟩

/-- Full variant invoked with only 3 arguments `(topic, updated_at,
topic_id)`. -/
def tdThreeArgs : TriggerData :=
  ⟨.ins, true, true, rowHello, rowHello, ⟨"post", 5005, false, descContent⟩,
    ⟨"post_u3", ["topic", "updated_at", "topic_id"]⟩⟩

/-- Full variant with an odd trailing argument count: 5 arguments, one
dangling predicate column `flag` (whose value on the row is non-null). -/
def tdOddArgs : TriggerData :=
  ⟨.ins, true, true, rowFlagNo, rowFlagNo, ⟨"post", 6006, false, descFlag⟩,
    ⟨"post_odd", ["topic", "updated_at", "id", "topic_id", "flag"]⟩⟩

/-- Full-variant insert with `id = 9` (scenario D driver). -/
def tdInsert : TriggerData :=
  ⟨.ins, true, true,
    ⟨40, 24, 3, 2, 0, [0, 1], [intField 9, intField 5, textField "a"]⟩,
    ⟨40, 24, 3, 2, 0, [0, 1], [intField 9, intField 5, textField "a"]⟩,
    ⟨"post", 7007, false, descContent⟩,
    ⟨"post_ins", ["topic", "updated_at", "id", "topic_id"]⟩⟩

/-- Scenario B invocation: simplified variant, args `(topic, updated_at,
topic_id)`, content-changing update of `rowHello`. -/
def tdScenB : TriggerData :=
  ⟨.upd, true, true, rowHello, rowHowdy, ⟨"post", 8008, false, descContent⟩,
    ⟨"post_sim", ["topic", "updated_at", "topic_id"]⟩⟩

/-- Row of `post` whose `flag` predicate column is NULL. -/
def rowFlagNull : HeapTuple := ⟨40, 24, 3, 2, 0, [0, 1], [intField 7, intField 5, nullField]⟩

/-- Full-variant insert with predicate pair `(flag, yes)` where the row's
`flag` is NULL. -/
def tdNullPred : TriggerData :=
  ⟨.ins, true, true, rowFlagNull, rowFlagNull, ⟨"post", 1010, false, descFlag⟩,
    ⟨"post_np", ["topic", "updated_at", "id", "topic_id", "flag", "yes"]⟩⟩

/-- The statement the full variant generates from the 3-argument invocation
`tdThreeArgs` (its third argument lands in the WHERE column slot). -/
def sqlWhereTopicId : String := "UPDATE topic SET updated_at = NOW() WHERE topic_id = $1"

/-- The full result of the Scenario A invocation `tdScenA` on an empty
cache. -/
def runScenA : RunResult :=
  ⟨rowHello, [⟨"post_update_trigger$1001", some ⟨sqlWhereId, 23⟩⟩],
    [.prepare sqlWhereId 23, .execute sqlWhereId 7]⟩

/-! Helper lemmas about the predicate loop and the plan cache. -/

/-- The predicate loop only ever fails with `noAttribute` (carrying the
fixed strings of each variant's message) or with the out-of-bounds marker;
in particular never with a configuration (arity) error. -/
theorem checkPairsAux_error_shape (row : HeapTuple) (tupdesc : TupleDescr)
    (rn ea : String) : ∀ (l : List String) (e : TgError),
    checkPairsAux row tupdesc rn ea l = .error e →
    e = .noAttribute rn ea ∨ e = .oobRead
  | [], e, h => by simp [checkPairsAux] at h
  | [col], e, h => by
    simp only [checkPairsAux] at h
    split at h
    · exact Or.inl (Except.error.inj h).symm
    · split at h
      · exact Except.noConfusion h
      · exact Or.inr (Except.error.inj h).symm
  | col :: x :: rest, e, h => by
    simp only [checkPairsAux] at h
    split at h
    · exact Or.inl (Except.error.inj h).symm
    · split at h
      · exact checkPairsAux_error_shape row tupdesc rn ea rest e h
      · split at h
        · exact Except.noConfusion h
        · exact checkPairsAux_error_shape row tupdesc rn ea rest e h

/-- A failed scan means no entry matches the identity. -/
theorem findPlanIdx_none_forall (ident : String) (c : List EPlan)
    (h : findPlanIdx ident c = none) : ∀ e ∈ c, e.ident ≠ ident := by
  induction c with
  | nil => intro e he; cases he
  | cons a rest ih =>
    simp only [findPlanIdx] at h
    split at h
    · exact Option.noConfusion h
    · rename_i hne
      have hr : findPlanIdx ident rest = none := by
        rcases hfi : findPlanIdx ident rest with _ | i
        · rfl
        · rw [hfi] at h; simp at h
      intro e he
      rcases List.mem_cons.mp he with rfl | he2
      · exact hne
      · exact ih hr e he2

/-- After appending an entry for a previously missing identity, the scan
finds exactly that entry. -/
theorem findPlanIdx_append_self (ident : String) (c : List EPlan) (p : Option SPIPlan)
    (h : findPlanIdx ident c = none) :
    findPlanIdx ident (c ++ [⟨ident, p⟩]) = some c.length := by
  induction c with
  | nil => simp [findPlanIdx]
  | cons a rest ih =>
    simp only [findPlanIdx, List.cons_append, List.append_eq] at h ⊢
    split at h
    · exact Option.noConfusion h
    · rename_i hne
      rw [if_neg hne]
      have hr : findPlanIdx ident rest = none := by
        rcases hfi : findPlanIdx ident rest with _ | i
        · rfl
        · rw [hfi] at h; simp at h
      rw [ih hr]
      simp

/-- Reading the appended entry back. -/
theorem getD_append_length (c : List EPlan) (a d : EPlan) :
    (c ++ [a]).getD c.length d = a := by
  induction c with
  | nil => rfl
  | cons x rest ih => simp [List.getD, ih]

/-- Overwriting the appended entry in place. -/
theorem set_append_length (c : List EPlan) (a b : EPlan) :
    (c ++ [a]).set c.length b = c ++ [b] := by
  induction c with
  | nil => rfl
  | cons x rest ih => simp [List.set, ih]

/-- A successful scan returns the index of an entry carrying the identity. -/
theorem findPlanIdx_some_ident (ident : String) (c : List EPlan) (i : Nat)
    (h : findPlanIdx ident c = some i) : (c.getD i ⟨"", none⟩).ident = ident := by
  induction c generalizing i with
  | nil => simp [findPlanIdx] at h
  | cons a rest ih =>
    simp only [findPlanIdx] at h
    split at h
    · rename_i heq
      cases h
      exact heq
    · rcases hfi : findPlanIdx ident rest with _ | j
      · rw [hfi] at h; simp at h
      · rw [hfi] at h
        simp at h
        subst h
        simpa [List.getD] using ih j hfi

/-- Replacing an entry by one with the same identity leaves the identity
list of the cache unchanged. -/
theorem map_ident_set (l : List EPlan) (i : Nat) (a : EPlan)
    (h : (l.getD i ⟨"", none⟩).ident = a.ident) :
    (l.set i a).map EPlan.ident = l.map EPlan.ident := by
  induction l generalizing i with
  | nil => simp
  | cons x rest ih =>
    cases i with
    | zero =>
      simp only [List.getD, List.get?_cons_zero] at h
      simp [List.set, ← h]
    | succ n =>
      simp only [List.getD] at h
      simp only [List.set, List.map_cons, List.cons.injEq, true_and]
      exact ih n (by simpa [List.getD] using h)

/-- `find_plan` keeps the cache identities duplicate-free. -/
theorem find_plan_nodup (ident : String) (c : List EPlan)
    (hn : (c.map EPlan.ident).Nodup) :
    (((find_plan ident c).2).map EPlan.ident).Nodup := by
  rcases hfi : findPlanIdx ident c with _ | i
  · simp only [find_plan, hfi, List.map_append, List.map_cons, List.map_nil]
    refine hn.append (List.nodup_singleton _) ?_
    intro a ha hmem
    have haeq := List.mem_singleton.mp hmem
    rcases List.mem_map.mp ha with ⟨e, he, rfl⟩
    exact findPlanIdx_none_forall ident c hfi e he haeq
  · simp [find_plan, hfi, hn]

/-- Filling the entry `find_plan` returned (with its own identity) keeps the
cache identities duplicate-free. -/
theorem find_plan_set_nodup (ident : String) (c : List EPlan) (pl : Option SPIPlan)
    (hn : (c.map EPlan.ident).Nodup) :
    ((((find_plan ident c).2).set (find_plan ident c).1
        ⟨ident, pl⟩).map EPlan.ident).Nodup := by
  have hset : (((find_plan ident c).2).set (find_plan ident c).1
      ⟨ident, pl⟩).map EPlan.ident = ((find_plan ident c).2).map EPlan.ident := by
    apply map_ident_set
    rcases hfi : findPlanIdx ident c with _ | i
    · simp only [find_plan, hfi]
      exact congrArg EPlan.ident (getD_append_length c _ _)
    · simp only [find_plan, hfi]
      exact findPlanIdx_some_ident ident c i hfi
  rw [hset]
  exact find_plan_nodup ident c hn

/-- Any non-error invocation of the full variant leaves the cache identity
list duplicate-free: the cache is only ever touched through `find_plan` and
through filling the returned entry with its own identity. -/
theorem cascade_timestamp_nodup (flag : Bool) (td : TriggerData) (c : List EPlan)
    (r : RunResult) (h : cascade_timestamp flag td c = .ok r)
    (hn : (c.map EPlan.ident).Nodup) : (r.cache.map EPlan.ident).Nodup := by
  simp only [cascade_timestamp] at h
  repeat' split at h
  all_goals first
    | exact Except.noConfusion h
    | (injection h with h; subst h; first
        | exact hn
        | exact find_plan_nodup _ c hn
        | exact find_plan_set_nodup _ c _ hn)

/-! Claim theorems. -/

/-- C1: Scenario A — full variant with arguments
`(topic, updated_at, id, topic_id)`, content-changing update of a row with
`topic_id = 5` (and `id = 7`).  The claim says the single bound parameter is
the triggering row's source key (`topic_id`, the fourth argument), i.e. 5.
The code instead looks up the column named by the THIRD argument (`id`) on
the triggering relation and binds its value: the executed statement is
`UPDATE topic SET updated_at = NOW() WHERE id = $1` with parameter 7, the
row's `id`, while the row's `topic_id` is 5 and 7 ≠ 5.  The fourth argument
is never read (except in an unrelated error message), contradicting the
file's own usage documentation of a cascade through the foreign key. -/
theorem c1_full_variant_binds_destination_key_column :
    cascade_timestamp true tdScenA [] = .ok runScenA ∧
    runScenA.events = [.prepare sqlWhereId 23, .execute sqlWhereId 7] ∧
    (spiGetbinval tdScenA.tg_trigtuple (spiFnumber descContent "id").toNat).1 = 7 ∧
    (spiGetbinval tdScenA.tg_trigtuple (spiFnumber descContent "topic_id").toNat).1 = 5 ∧
    ((7 : Int) = 5 → False) := ⟨rfl, rfl, rfl, rfl, by decide⟩

/-- C2 counterexample: with a prepared statement already cached for the
trigger/relation identity, an invocation whose source key is NULL does NOT
skip: the cached statement is executed, binding the null's zero datum.  The
`isnull` check sits inside the `plan == NULL` branch only. -/
theorem c2_counterexample_cached_plan_executes_on_null_key :
    cascade_update_at true tdNullKey cacheFilled =
      .ok ⟨rowNullKey, cacheFilled, [.execute sqlWhereId 0]⟩ ∧
    (spiGetbinval tdNullKey.tg_trigtuple
      (spiFnumber descContent "topic_id").toNat).2 = true :=
  ⟨rfl, rfl⟩

/-- C2 (amended): a NULL source key skips the cascade silently — no
statement executed, no error, original row returned — only when the cache
entry found for the invocation's identity has no prepared statement yet
(in particular on the first cascading invocation per identity; `find_plan`
still appends the fresh empty entry).  Both variants behave alike. -/
theorem c2_null_key_skips_only_when_plan_unset :
    (∀ (td : TriggerData) (c : List EPlan),
      td.firedAfter = true → td.firedForRow = true →
      3 ≤ td.tg_trigger.tgargs.length →
      checkPairsAux td.tg_trigtuple td.tg_relation.rd_att td.tg_relation.relname
        (td.tg_trigger.tgargs.getD 3 "") (td.tg_trigger.tgargs.drop 4) = .ok true →
      rowChanged td.op td.tg_relation.relhasoids td.tg_newtuple td.tg_trigtuple = true →
      0 ≤ spiFnumber td.tg_relation.rd_att (td.tg_trigger.tgargs.getD 2 "") →
      (spiGetbinval td.tg_trigtuple
        (spiFnumber td.tg_relation.rd_att (td.tg_trigger.tgargs.getD 2 "")).toNat).2 = true →
      ((find_plan (td.tg_trigger.tgname ++ "$" ++ toString td.tg_relation.rd_id) c).2.getD
        (find_plan (td.tg_trigger.tgname ++ "$" ++ toString td.tg_relation.rd_id) c).1
        ⟨"", none⟩).plan = none →
      cascade_timestamp true td c = .ok ⟨td.tg_trigtuple,
        (find_plan (td.tg_trigger.tgname ++ "$" ++ toString td.tg_relation.rd_id) c).2,
        []⟩) ∧
    (∀ (td : TriggerData) (c : List EPlan),
      td.firedAfter = true → td.firedForRow = true →
      3 ≤ td.tg_trigger.tgargs.length →
      checkPairsAux td.tg_trigtuple td.tg_relation.rd_att td.tg_relation.relname
        (td.tg_trigger.tgargs.getD 2 "") (td.tg_trigger.tgargs.drop 3) = .ok true →
      rowChanged td.op td.tg_relation.relhasoids td.tg_newtuple td.tg_trigtuple = true →
      0 ≤ spiFnumber td.tg_relation.rd_att (td.tg_trigger.tgargs.getD 2 "") →
      (spiGetbinval td.tg_trigtuple
        (spiFnumber td.tg_relation.rd_att (td.tg_trigger.tgargs.getD 2 "")).toNat).2 = true →
      ((find_plan (td.tg_trigger.tgname ++ "$" ++ toString td.tg_relation.rd_id) c).2.getD
        (find_plan (td.tg_trigger.tgname ++ "$" ++ toString td.tg_relation.rd_id) c).1
        ⟨"", none⟩).plan = none →
      cascade_update_at true td c = .ok ⟨td.tg_trigtuple,
        (find_plan (td.tg_trigger.tgname ++ "$" ++ toString td.tg_relation.rd_id) c).2,
        []⟩) := by
  constructor
  · intro td c hA hR h3 hg hch hfn hnull hplan
    simp only [cascade_timestamp, hA, hR, hg, hch, hnull, hplan, Bool.not_true,
      Bool.not_false, Bool.and_self, Bool.false_eq_true, if_false,
      if_neg (Nat.not_lt.mpr h3), if_neg (Int.not_lt.mpr hfn), if_true]
  · intro td c hA hR h3 hg hch hfn hnull hplan
    simp only [cascade_update_at, hA, hR, hg, hch, hnull, hplan, Bool.not_true,
      Bool.not_false, Bool.and_self, Bool.false_eq_true, if_false,
      if_neg (Nat.not_lt.mpr h3), if_neg (Int.not_lt.mpr hfn), if_true]

/-- C2 witness: first simplified-variant insert of a row with NULL
`topic_id` on an empty cache skips, leaving only the fresh empty entry. -/
theorem c2_null_key_witness :
    cascade_update_at true tdNullKey [] = .ok ⟨rowNullKey, [⟨"post_t$2002", none⟩], []⟩ :=
  c2_null_key_skips_only_when_plan_unset.2 tdNullKey [] rfl rfl (by decide)
    rfl rfl (by decide) rfl rfl

/-- C3 counterexample: a content-changing update whose NEW row image
satisfies the predicate pair `(flag, yes)` while the OLD image does not.
The claim says the guard evaluates the new row image, which here passes and
(with a non-null key) would cascade; the code evaluates `tg_trigtuple` (the
old image), the guard fails, and no statement is executed. -/
theorem c3_counterexample_new_image_matches_but_skipped :
    cascade_timestamp true tdGuardRows [] = .ok ⟨rowFlagNo, [], []⟩ ∧
    spiGetvalue tdGuardRows.tg_newtuple (spiFnumber descFlag "flag").toNat = some "yes" ∧
    rowChanged tdGuardRows.op tdGuardRows.tg_relation.relhasoids
      tdGuardRows.tg_newtuple tdGuardRows.tg_trigtuple = true ∧
    (spiGetbinval tdGuardRows.tg_trigtuple (spiFnumber descFlag "id").toNat).2 = false :=
  ⟨rfl, rfl, rfl, rfl⟩

/-- C3 (amended): the predicate guard always evaluates predicate columns on
the triggering tuple `tg_trigtuple` — for updates the OLD row image, not the
new one; a mismatch there skips the cascade regardless of the new image's
values (for insert and delete the triggering tuple is the single affected
row, as the claim says). -/
theorem c3_guard_evaluates_triggering_tuple :
    ∀ (td : TriggerData) (c : List EPlan),
      td.firedAfter = true → td.firedForRow = true →
      3 ≤ td.tg_trigger.tgargs.length →
      td.op = .upd →
      checkPairsAux td.tg_trigtuple td.tg_relation.rd_att td.tg_relation.relname
        (td.tg_trigger.tgargs.getD 3 "") (td.tg_trigger.tgargs.drop 4) = .ok false →
      cascade_timestamp true td c = .ok ⟨td.tg_trigtuple, c, []⟩ := by
  intro td c hA hR h3 hop hg
  simp only [cascade_timestamp, hA, hR, hg, Bool.not_true, Bool.false_eq_true,
    if_false, if_neg (Nat.not_lt.mpr h3), Bool.and_false, Bool.not_false,
    eq_self_iff_true, if_true]

/-- C3 witness: the guard-mismatch update of `tdGuardRows` skips. -/
theorem c3_guard_witness :
    cascade_timestamp true tdGuardRows [] = .ok ⟨tdGuardRows.tg_trigtuple, [], []⟩ :=
  c3_guard_evaluates_triggering_tuple tdGuardRows [] rfl rfl (by decide) rfl rfl

/-- C4: an update whose (oid-fixed) new image compares equal to the old —
same length, header offset, attribute count, non-transactional infomask
bits and payload bytes — executes no cascade and returns the original row
with the cache untouched (provided the predicate columns resolve, since the
predicate loop runs regardless); iterating such an invocation any number of
times produces no statement events at all.  Insert and delete always
classify as changed. -/
theorem c4_identical_update_never_cascades :
    (∀ (td : TriggerData) (c : List EPlan) (g : Bool),
      td.firedAfter = true → td.firedForRow = true →
      3 ≤ td.tg_trigger.tgargs.length →
      td.op = .upd →
      sameTuple td.tg_relation.relhasoids
        (fixOid td.tg_relation.relhasoids td.tg_newtuple td.tg_trigtuple)
        td.tg_trigtuple = true →
      checkPairsAux td.tg_trigtuple td.tg_relation.rd_att td.tg_relation.relname
        (td.tg_trigger.tgargs.getD 3 "") (td.tg_trigger.tgargs.drop 4) = .ok g →
      cascade_timestamp true td c = .ok ⟨td.tg_trigtuple, c, []⟩ ∧
      ∀ n, iterateCT td c n = .ok (c, [])) ∧
    (∀ (op : TgOp) (rh : Bool) (newt oldt : HeapTuple),
      op ≠ .upd → rowChanged op rh newt oldt = true) := by
  constructor
  · intro td c g hA hR h3 hop hsame hg
    have hch : rowChanged td.op td.tg_relation.relhasoids td.tg_newtuple
        td.tg_trigtuple = false := by
      rw [hop]; simp [rowChanged, hsame]
    have h1 : cascade_timestamp true td c = .ok ⟨td.tg_trigtuple, c, []⟩ := by
      simp only [cascade_timestamp, hA, hR, hg, hch, Bool.not_true, Bool.false_eq_true,
        if_false, if_neg (Nat.not_lt.mpr h3), Bool.false_and, Bool.not_false,
        eq_self_iff_true, if_true]
    refine ⟨h1, ?_⟩
    intro n
    induction n with
    | zero => rfl
    | succ m ih => simp [iterateCT, h1, ih]
  · intro op rh newt oldt hop
    cases op with
    | upd => exact absurd rfl hop
    | ins => rfl
    | del => rfl

/-- C4 witness: three re-invocations of the no-op update `tdNoop` on an
empty cache leave the cache empty and produce no events. -/
theorem c4_identical_update_witness : iterateCT tdNoop [] 3 = .ok ([], []) :=
  (c4_identical_update_never_cascades.1 tdNoop [] true rfl rfl (by decide)
    rfl rfl rfl).2 3

/-- C5: the full variant's arity check is `tgnargs < 3`, not `< 4`: an
invocation with exactly 3 arguments is NOT rejected — it proceeds and even
cascades, generating `UPDATE topic SET updated_at = NOW() WHERE topic_id = $1`
from its three arguments, although the code's own error message demands a
destination table, timestamp column, primary key column AND a foreign key
column. -/
theorem c5_three_arguments_accepted :
    tdThreeArgs.tg_trigger.tgargs.length = 3 ∧
    cascade_timestamp true tdThreeArgs [] =
      .ok ⟨rowHello, [⟨"post_u3$5005", some ⟨sqlWhereTopicId, 23⟩⟩],
        [.prepare sqlWhereTopicId 23, .execute sqlWhereTopicId 5]⟩ := ⟨rfl, rfl⟩

/-- C6 counterexample: a 5-argument full-variant invocation (one dangling
predicate column, odd trailing count) is not rejected with a configuration
error; the predicate loop evaluates the dangling column and, its value
being non-null, reads one argument past the end of the list (the embedded
marker of the C code's out-of-bounds read). -/
theorem c6_counterexample_odd_arguments :
    tdOddArgs.tg_trigger.tgargs.length = 5 ∧
    cascade_timestamp true tdOddArgs [] = .error .oobRead ∧
    (TgError.oobRead = TgError.badArgs 5 → False) := ⟨rfl, rfl, by decide⟩

/-- C6 (amended): no evenness validation of the trailing predicate
arguments exists.  Any invocation with at least 3 arguments passes the
arity check — the configuration (arity) error is impossible whatever the
parity — and a dangling predicate column whose value is non-null makes the
loop read past the end of the argument list instead. -/
theorem c6_no_pair_evenness_validation :
    (∀ (flag : Bool) (td : TriggerData) (c : List EPlan) (n : Nat),
      3 ≤ td.tg_trigger.tgargs.length →
      cascade_timestamp flag td c ≠ .error (.badArgs n)) ∧
    (∀ (row : HeapTuple) (tupdesc : TupleDescr) (rn ea col : String),
      0 ≤ spiFnumber tupdesc col →
      spiGetvalue row (spiFnumber tupdesc col).toNat ≠ none →
      checkPairsAux row tupdesc rn ea [col] = .error .oobRead) := by
  constructor
  · intro flag td c n h3 h
    simp only [cascade_timestamp] at h
    repeat' split at h
    all_goals try exact Except.noConfusion h
    all_goals injection h with h2
    all_goals try exact TgError.noConfusion h2
    all_goals first
      | (rename_i hlt; exact absurd hlt (by omega))
      | (subst h2; rename_i heq2;
         rcases checkPairsAux_error_shape _ _ _ _ _ _ heq2 with h1 | h1 <;>
           exact TgError.noConfusion h1)
  · intro row tupdesc rn ea col hge hnn
    simp only [checkPairsAux]
    rw [if_neg (by omega)]
    rcases hv : spiGetvalue row (spiFnumber tupdesc col).toNat with _ | v
    · exact absurd hv hnn
    · simp [hv]

/-- C6 witness: a 3-argument invocation cannot produce the arity error, and
the loop on the dangling column `flag` of `rowFlagNo` hits the
out-of-bounds marker. -/
theorem c6_no_pair_evenness_witness :
    cascade_timestamp true tdThreeArgs [] ≠ .error (.badArgs 3) ∧
    checkPairsAux rowFlagNo descFlag "post" "topic_id" ["flag"] = .error .oobRead :=
  ⟨c6_no_pair_evenness_validation.1 true tdThreeArgs [] 3 (by decide),
   c6_no_pair_evenness_validation.2 rowFlagNo descFlag "post" "topic_id" "flag"
     (by decide) (by decide)⟩

/-- C7: on a cascading invocation with a fresh identity, `find_plan`
appends exactly one entry; a second cascading invocation with the same
trigger/relation pair finds that entry and executes its stored statement
without preparing again; the appended cache keeps its identities
duplicate-free, and in general every non-error invocation preserves
duplicate-freedom of the identity list (at most one entry per identity). -/
theorem c7_plan_cache_lookup_and_reuse :
    ∀ (td : TriggerData) (c : List EPlan) (ident sql : String) (t : Nat) (k : Int),
      td.firedAfter = true → td.firedForRow = true →
      3 ≤ td.tg_trigger.tgargs.length →
      rowChanged td.op td.tg_relation.relhasoids td.tg_newtuple td.tg_trigtuple = true →
      checkPairsAux td.tg_trigtuple td.tg_relation.rd_att td.tg_relation.relname
        (td.tg_trigger.tgargs.getD 3 "") (td.tg_trigger.tgargs.drop 4) = .ok true →
      0 ≤ spiFnumber td.tg_relation.rd_att (td.tg_trigger.tgargs.getD 2 "") →
      (spiGetbinval td.tg_trigtuple
        (spiFnumber td.tg_relation.rd_att (td.tg_trigger.tgargs.getD 2 "")).toNat).2 = false →
      ident = td.tg_trigger.tgname ++ "$" ++ toString td.tg_relation.rd_id →
      findPlanIdx ident c = none →
      (c.map EPlan.ident).Nodup →
      sql = "UPDATE " ++ td.tg_trigger.tgargs.getD 0 "" ++ " SET " ++
        td.tg_trigger.tgargs.getD 1 "" ++ " = NOW() WHERE " ++
        td.tg_trigger.tgargs.getD 2 "" ++ " = $1" →
      t = spiGettypeid td.tg_relation.rd_att
        (spiFnumber td.tg_relation.rd_att (td.tg_trigger.tgargs.getD 2 "")).toNat →
      k = (spiGetbinval td.tg_trigtuple
        (spiFnumber td.tg_relation.rd_att (td.tg_trigger.tgargs.getD 2 "")).toNat).1 →
      cascade_timestamp true td c =
        .ok ⟨td.tg_trigtuple, c ++ [⟨ident, some ⟨sql, t⟩⟩],
          [.prepare sql t, .execute sql k]⟩ ∧
      cascade_timestamp true td (c ++ [⟨ident, some ⟨sql, t⟩⟩]) =
        .ok ⟨td.tg_trigtuple, c ++ [⟨ident, some ⟨sql, t⟩⟩], [.execute sql k]⟩ ∧
      ((c ++ [(⟨ident, some ⟨sql, t⟩⟩ : EPlan)]).map EPlan.ident).Nodup ∧
      (∀ (flag : Bool) (td2 : TriggerData) (c2 : List EPlan) (r : RunResult),
        cascade_timestamp flag td2 c2 = .ok r → (c2.map EPlan.ident).Nodup →
        (r.cache.map EPlan.ident).Nodup) := by
  intro td c ident sql t k hA hR h3 hch hg hfn hnn hid hfresh hnd hsql ht hk
  subst hid hsql ht hk
  have hfp : find_plan (td.tg_trigger.tgname ++ "$" ++ toString td.tg_relation.rd_id) c =
      (c.length, c ++ [⟨td.tg_trigger.tgname ++ "$" ++ toString td.tg_relation.rd_id,
        none⟩]) := by
    simp [find_plan, hfresh]
  have hfi2 := findPlanIdx_append_self
    (td.tg_trigger.tgname ++ "$" ++ toString td.tg_relation.rd_id) c
    (some (SPIPlan.mk ("UPDATE " ++ td.tg_trigger.tgargs.getD 0 "" ++ " SET " ++
        td.tg_trigger.tgargs.getD 1 "" ++ " = NOW() WHERE " ++
        td.tg_trigger.tgargs.getD 2 "" ++ " = $1")
      (spiGettypeid td.tg_relation.rd_att
        (spiFnumber td.tg_relation.rd_att (td.tg_trigger.tgargs.getD 2 "")).toNat))) hfresh
  refine ⟨?_, ?_, ?_, ?_⟩
  · simp only [cascade_timestamp, hA, hR, hg, hch, Bool.not_true, Bool.false_eq_true,
      if_false, if_neg (Nat.not_lt.mpr h3), if_neg (Int.not_lt.mpr hfn),
      Bool.and_self, Bool.not_true, eq_self_iff_true, if_true, hfp, hnn,
      getD_append_length, set_append_length]
  · have hfp2 : find_plan (td.tg_trigger.tgname ++ "$" ++ toString td.tg_relation.rd_id)
        (c ++ [⟨td.tg_trigger.tgname ++ "$" ++ toString td.tg_relation.rd_id,
          some ⟨"UPDATE " ++ td.tg_trigger.tgargs.getD 0 "" ++ " SET " ++
              td.tg_trigger.tgargs.getD 1 "" ++ " = NOW() WHERE " ++
              td.tg_trigger.tgargs.getD 2 "" ++ " = $1",
            spiGettypeid td.tg_relation.rd_att
              (spiFnumber td.tg_relation.rd_att
                (td.tg_trigger.tgargs.getD 2 "")).toNat⟩⟩]) =
        (c.length, c ++ [⟨td.tg_trigger.tgname ++ "$" ++ toString td.tg_relation.rd_id,
          some ⟨"UPDATE " ++ td.tg_trigger.tgargs.getD 0 "" ++ " SET " ++
              td.tg_trigger.tgargs.getD 1 "" ++ " = NOW() WHERE " ++
              td.tg_trigger.tgargs.getD 2 "" ++ " = $1",
            spiGettypeid td.tg_relation.rd_att
              (spiFnumber td.tg_relation.rd_att
                (td.tg_trigger.tgargs.getD 2 "")).toNat⟩⟩]) := by
      simp only [find_plan, hfi2]
    simp only [cascade_timestamp, hA, hR, hg, hch, Bool.not_true, Bool.false_eq_true,
      if_false, if_neg (Nat.not_lt.mpr h3), if_neg (Int.not_lt.mpr hfn),
      Bool.and_self, eq_self_iff_true, if_true, hfp2, getD_append_length]
  · have h1 := find_plan_nodup
      (td.tg_trigger.tgname ++ "$" ++ toString td.tg_relation.rd_id) c hnd
    rw [hfp] at h1
    simpa using h1
  · intro flag td2 c2 r h hn2
    exact cascade_timestamp_nodup flag td2 c2 r h hn2

/-- C7 witness: Scenario D — two inserts through the same trigger/relation
pair: the first prepares and executes, the second only executes the cached
statement. -/
theorem c7_plan_cache_witness :
    cascade_timestamp true tdInsert [] =
      .ok ⟨tdInsert.tg_trigtuple, [⟨"post_ins$7007", some ⟨sqlWhereId, 23⟩⟩],
        [.prepare sqlWhereId 23, .execute sqlWhereId 9]⟩ ∧
    cascade_timestamp true tdInsert [⟨"post_ins$7007", some ⟨sqlWhereId, 23⟩⟩] =
      .ok ⟨tdInsert.tg_trigtuple, [⟨"post_ins$7007", some ⟨sqlWhereId, 23⟩⟩],
        [.execute sqlWhereId 9]⟩ :=
  ⟨(c7_plan_cache_lookup_and_reuse tdInsert [] "post_ins$7007" sqlWhereId 23 9
      rfl rfl (by decide) rfl rfl (by decide) rfl rfl rfl (by decide) rfl rfl rfl).1,
   (c7_plan_cache_lookup_and_reuse tdInsert [] "post_ins$7007" sqlWhereId 23 9
      rfl rfl (by decide) rfl rfl (by decide) rfl rfl rfl (by decide) rfl rfl rfl).2.1⟩

/-- C8: a cascading invocation of the simplified variant with a fresh
identity prepares and executes
`UPDATE <arg0> SET <arg1> = NOW() WHERE id = $1` — the destination key
column is the literal identifier name — binding the triggering row's value
of the column named by the third argument. -/
theorem c8_simplified_variant_statement_shape :
    ∀ (td : TriggerData) (c : List EPlan) (ident sql : String) (t : Nat) (k : Int),
      td.firedAfter = true → td.firedForRow = true →
      3 ≤ td.tg_trigger.tgargs.length →
      rowChanged td.op td.tg_relation.relhasoids td.tg_newtuple td.tg_trigtuple = true →
      checkPairsAux td.tg_trigtuple td.tg_relation.rd_att td.tg_relation.relname
        (td.tg_trigger.tgargs.getD 2 "") (td.tg_trigger.tgargs.drop 3) = .ok true →
      0 ≤ spiFnumber td.tg_relation.rd_att (td.tg_trigger.tgargs.getD 2 "") →
      (spiGetbinval td.tg_trigtuple
        (spiFnumber td.tg_relation.rd_att (td.tg_trigger.tgargs.getD 2 "")).toNat).2 = false →
      ident = td.tg_trigger.tgname ++ "$" ++ toString td.tg_relation.rd_id →
      findPlanIdx ident c = none →
      sql = "UPDATE " ++ td.tg_trigger.tgargs.getD 0 "" ++ " SET " ++
        td.tg_trigger.tgargs.getD 1 "" ++ " = NOW() WHERE id = $1" →
      t = spiGettypeid td.tg_relation.rd_att
        (spiFnumber td.tg_relation.rd_att (td.tg_trigger.tgargs.getD 2 "")).toNat →
      k = (spiGetbinval td.tg_trigtuple
        (spiFnumber td.tg_relation.rd_att (td.tg_trigger.tgargs.getD 2 "")).toNat).1 →
      cascade_update_at true td c =
        .ok ⟨td.tg_trigtuple, c ++ [⟨ident, some ⟨sql, t⟩⟩],
          [.prepare sql t, .execute sql k]⟩ := by
  intro td c ident sql t k hA hR h3 hch hg hfn hnn hid hfresh hsql ht hk
  subst hid hsql ht hk
  have hfp : find_plan (td.tg_trigger.tgname ++ "$" ++ toString td.tg_relation.rd_id) c =
      (c.length, c ++ [⟨td.tg_trigger.tgname ++ "$" ++ toString td.tg_relation.rd_id,
        none⟩]) := by
    simp only [find_plan, hfresh]
  simp only [cascade_update_at, hA, hR, hg, hch, Bool.not_true, Bool.false_eq_true,
    if_false, if_neg (Nat.not_lt.mpr h3), if_neg (Int.not_lt.mpr hfn),
    Bool.and_self, eq_self_iff_true, if_true, hfp, hnn,
    getD_append_length, set_append_length]

/-- C8 witness: Scenario B — simplified variant with
`(topic, updated_at, topic_id)` on a content-changing update of a row with
`topic_id = 5` executes `UPDATE topic SET updated_at = NOW() WHERE id = $1`
binding 5. -/
theorem c8_simplified_variant_witness :
    cascade_update_at true tdScenB [] =
      .ok ⟨rowHello, [⟨"post_sim$8008", some ⟨sqlWhereId, 23⟩⟩],
        [.prepare sqlWhereId 23, .execute sqlWhereId 5]⟩ ∧
    (spiGetbinval tdScenB.tg_trigtuple
      (spiFnumber descContent "topic_id").toNat).1 = 5 :=
  ⟨c8_simplified_variant_statement_shape tdScenB [] "post_sim$8008" sqlWhereId 23 5
      rfl rfl (by decide) rfl rfl (by decide) rfl rfl rfl (by decide) rfl rfl,
   rfl⟩

/-- C9: every non-error exit of either variant — cascade executed, skipped
by the change classifier, skipped by the predicate guard, or skipped for a
null source key — returns exactly the triggering tuple `tg_trigtuple` to
the host. -/
theorem c9_returns_original_row :
    (∀ (flag : Bool) (td : TriggerData) (c : List EPlan) (r : RunResult),
      cascade_timestamp flag td c = .ok r → r.ret = td.tg_trigtuple) ∧
    (∀ (flag : Bool) (td : TriggerData) (c : List EPlan) (r : RunResult),
      cascade_update_at flag td c = .ok r → r.ret = td.tg_trigtuple) := by
  constructor
  · intro flag td c r h
    simp only [cascade_timestamp] at h
    repeat' split at h
    all_goals first
      | exact Except.noConfusion h
      | (injection h with h; subst h; rfl)
  · intro flag td c r h
    simp only [cascade_update_at] at h
    repeat' split at h
    all_goals first
      | exact Except.noConfusion h
      | (injection h with h; subst h; rfl)

/-- C9 witness: the Scenario A run returns the invocation's triggering
tuple. -/
theorem c9_returns_original_row_witness : runScenA.ret = tdScenA.tg_trigtuple :=
  c9_returns_original_row.1 true tdScenA [] runScenA rfl

/-- C10: a predicate pair whose column exists but whose value on the
evaluated row renders as NULL is treated as matching — the loop moves on to
the remaining pairs — and concretely, an insert whose `flag` predicate
column is NULL still cascades. -/
theorem c10_null_predicate_value_passes :
    (∀ (row : HeapTuple) (tupdesc : TupleDescr) (rn ea col expected : String)
        (rest : List String),
      0 ≤ spiFnumber tupdesc col →
      spiGetvalue row (spiFnumber tupdesc col).toNat = none →
      checkPairsAux row tupdesc rn ea (col :: expected :: rest) =
        checkPairsAux row tupdesc rn ea rest) ∧
    cascade_timestamp true tdNullPred [] =
      .ok ⟨rowFlagNull, [⟨"post_np$1010", some ⟨sqlWhereId, 23⟩⟩],
        [.prepare sqlWhereId 23, .execute sqlWhereId 7]⟩ := by
  constructor
  · intro row tupdesc rn ea col expected rest hge hnull
    simp only [checkPairsAux, if_neg (Int.not_lt.mpr hge), hnull]
  · rfl

/-- C10 witness: the NULL `flag` pair of `rowFlagNull` reduces to the empty
pair list, i.e. it matches. -/
theorem c10_null_predicate_witness :
    checkPairsAux rowFlagNull descFlag "post" "topic_id" ["flag", "yes"] =
      checkPairsAux rowFlagNull descFlag "post" "topic_id" [] :=
  c10_null_predicate_value_passes.1 rowFlagNull descFlag "post" "topic_id" "flag" "yes" []
    (by decide) (by decide)

end PgCascade
